import Mathlib

/-!
Verification of the HTTP→Event Hub ingestion relay (`src/app.py`).

The development shallowly embeds the request pipeline of `app.py`:

* `send_to_eventhub` (app.py lines 186–229): the forwarder that wraps the
  broker client, builds a single-event batch and publishes it.
* `func` (app.py lines 232–291): the `POST /` ingress handler
  (auth check → body acquisition → gzip decompression with fallback →
  forward → HTTP status mapping).
* `health` (app.py lines 294–296): the `GET /health` liveness endpoint.

External collaborators are modelled abstractly, exactly at the boundary the
code uses them:

* the Azure Event Hub producer client becomes `BrokerClient`, a record of
  flags saying which of its three operations (`create_batch`,
  `EventData`/`batch.add`, `send_batch`) raises; the operations actually
  performed are recorded in a `SendTrace`;
* `gzip.decompress` becomes an oracle `decompress : List Nat → Option
  (List Nat)` passed to the handler (`none` models the library raising);
* the Flask request is a `Request` record of the header values and body
  bytes the handler reads.

Byte strings are `List Nat`; Python `str` values are Lean `String`
(compared via their `List Char` data, i.e. byte-for-byte on ASCII).
All definitions are computable so that concrete requests evaluate by
`decide`/`rfl`.
-/

set_option autoImplicit false

namespace HttpIngest

/-! ### Python string primitives used by the handler -/

/-- Python `str.isspace` characters relevant to `str.strip()`:
space, tab, newline, carriage return, vertical tab, form feed. -/
def pyIsSpace (c : Char) : Bool :=
  c = ' ' || c = '\t' || c = '\n' || c = '\r' || c = Char.ofNat 11 || c = Char.ofNat 12

/-- Python `s.strip()`: remove whitespace from both ends. -/
def pyStrip (s : List Char) : List Char :=
  ((s.dropWhile pyIsSpace).reverse.dropWhile pyIsSpace).reverse

/-- Does the string begin with the five characters `Basic`?  Used to embed
Python's substring test `"Basic" in auth_header` (app.py line 246). -/
def leadsWithBasic : List Char → Bool
  | 'B' :: 'a' :: 's' :: 'i' :: 'c' :: _ => true
  | _ => false

/-- Python `"Basic" in h`: the substring `Basic` occurs somewhere in `h`
(app.py line 246). -/
def containsBasic : List Char → Bool
  | [] => false
  | h :: t => leadsWithBasic (h :: t) || containsBasic t

/-- Python `h.replace("Basic ", "")` (app.py line 247): delete every
occurrence of the six characters `Basic␣`, scanning left to right,
non-overlapping. -/
def replaceBasic : List Char → List Char
  | 'B' :: 'a' :: 's' :: 'i' :: 'c' :: ' ' :: rest => replaceBasic rest
  | h :: t => h :: replaceBasic t
  | [] => []

/-! ### Base64 (Python `base64.b64encode`, app.py line 171) -/

/-- The standard base64 alphabet. -/
def B64_ALPHABET : List Char :=
  ("ABCDEFGHIJKLMNOPQRSTUVWXYZabcdefghijklmnopqrstuvwxyz0123456789+/").data

/-- The `n`-th base64 alphabet character (`n < 64` in every use). -/
def b64char (n : Nat) : Char := B64_ALPHABET.getD n 'A'

/-- Standard base64 of a byte list, three input bytes per four output
characters, `=`-padded. -/
def b64groups : List Nat → List Char
  | [] => []
  | [a] => [b64char (a / 4), b64char (a % 4 * 16), '=', '=']
  | [a, b] => [b64char (a / 4), b64char (a % 4 * 16 + b / 16), b64char (b % 16 * 4), '=']
  | a :: b :: c :: rest =>
      b64char (a / 4) :: b64char (a % 4 * 16 + b / 16) ::
      b64char (b % 16 * 4 + c / 64) :: b64char (c % 64) :: b64groups rest

/-- ASCII bytes of a string (`s.encode()` for the ASCII strings involved). -/
def strBytes (s : String) : List Nat := s.data.map Char.toNat

/-- Embeds `base64.b64encode("{username}:{password}".encode()).decode()`
(app.py line 171): the precomputed expected Basic credential. -/
def BASIC_AUTH (username password : String) : String :=
  String.mk (b64groups (strBytes (username ++ ":" ++ password)))

/-! ### Response constants (app.py lines 173–175) -/

/-- Embeds `json.dumps({'success':False})` (app.py line 173). -/
def FAILURE_RESPONSE : String := "\x7b\"success\": false\x7d"

/-- Embeds `json.dumps({'success':True})` (app.py line 174). -/
def SUCCESS_RESPONSE : String := "\x7b\"success\": true\x7d"

/-- Embeds `APPLICATION_JSON = {'ContentType':'application/json'}` (app.py
line 175): the extra-headers mapping every response is returned with.  Note
the key is the literal name `ContentType`, not the HTTP header
`Content-Type`. -/
def APPLICATION_JSON : List (String × String) := [("ContentType", "application/json")]

/-! ### The broker client model and the forwarder -/

/-- Abstract model of the `EventHubProducerClient`: which of the broker
operations used by `send_to_eventhub` raises.  The flags are consulted in
the order the code performs the operations. -/
structure BrokerClient where
  createBatchFails : Bool
  eventStageFails : Bool
  sendBatchFails : Bool
deriving DecidableEq, Repr

/-- One `EventData`: payload bytes plus its `properties` map. -/
structure EventRec where
  data : List Nat
  properties : List (String × String)
deriving DecidableEq, Repr

/-- The broker operations performed during one `send_to_eventhub` call:
how many `create_batch` calls were made, which events were added to the
batch, and how many `send_batch` (publish) attempts were made. -/
structure SendTrace where
  createBatchCalls : Nat
  batchEvents : List EventRec
  publishAttempts : Nat
deriving DecidableEq, Repr

/-- The trace of a call that performed no broker operation at all. -/
def emptyTrace : SendTrace := ⟨0, [], 0⟩

/-- Outcome of `send_to_eventhub`: normal return, or a raised
`ProcessingException` with its message. -/
inductive SendResult where
  | ok
  | processingError (msg : String)
deriving DecidableEq, Repr

/-- Message of the `ProcessingException` raised when `producer_client is
None` (app.py line 198). -/
def notInitializedMsg : String := "Event Hub producer client is not initialized"

/-- Stands for the wrapped message
`f"Failed to send event to Event Hub: ..."` (app.py line 226). -/
def brokerFailureMsg : String := "Failed to send event to Event Hub"

/-- Computes `event.properties` after the optional tag step (app.py lines 212–213):
`if log_type: event.properties['LogType'] = log_type`.  Python truthiness:
`None` and the empty string both skip the assignment. -/
def eventProps (log_type : Option String) : List (String × String) :=
  match log_type with
  | some s => if s = "" then [] else [("LogType", s)]
  | none => []

/-- Embeds `send_to_eventhub(data, log_type)` (app.py lines 186–229).

* `producer_client is None` → raise `ProcessingException` before any broker
  operation (lines 197–200);
* otherwise `create_batch()`, `EventData(data)` with the optional `LogType`
  property, `batch.add(event)`, `send_batch(batch)` (lines 202–222), with
  any exception from those operations re-raised as a single
  `ProcessingException` (lines 225–229). -/
def send_to_eventhub (client : Option BrokerClient) (data : List Nat)
    (log_type : Option String) : SendResult × SendTrace :=
  match client with
  | none => (.processingError notInitializedMsg, emptyTrace)
  | some c =>
    if c.createBatchFails then
      (.processingError brokerFailureMsg, ⟨1, [], 0⟩)
    else if c.eventStageFails then
      (.processingError brokerFailureMsg, ⟨1, [], 0⟩)
    else if c.sendBatchFails then
      (.processingError brokerFailureMsg, ⟨1, [⟨data, eventProps log_type⟩], 1⟩)
    else
      (.ok, ⟨1, [⟨data, eventProps log_type⟩], 1⟩)

/-! ### The ingress handler -/

/-- The parts of the Flask request that `func` reads: the
`Authorization` header, the optional `Log-Type` header, and the body bytes. -/
structure Request where
  authorization : Option String
  logType : Option String
  body : List Nat
deriving DecidableEq, Repr

/-- An HTTP response as the handler returns it: body string, status code,
extra headers mapping (the third component of the Flask return tuple). -/
structure HttpResponse where
  body : String
  status : Nat
  headers : List (String × String)
deriving DecidableEq, Repr

/-- Everything observable about one `func` invocation: the HTTP response,
the broker operations performed, and the forwarder's outcome (`none` when
`send_to_eventhub` was never called). -/
structure HandlerOutcome where
  resp : HttpResponse
  trace : SendTrace
  sendResult : Option SendResult
deriving DecidableEq, Repr

/-- The authentication check of `func` (app.py lines 240–253): the header
must be present and non-empty (Python `if not auth_header`), must contain
the substring `Basic`, and `auth_header.replace("Basic ", "").strip()`
must equal the precomputed credential. -/
def authCheck (basicAuth : String) (authHeader : Option String) : Bool :=
  match authHeader with
  | none => false
  | some h =>
    if h = "" then false
    else if containsBasic h.data then
      decide (pyStrip (replaceBasic h.data) = basicAuth.data)
    else false

/-- The decompression step with fallback (app.py lines 262–271):
`gzip.decompress(body)` on success; on failure, `none` (→ 400) when the
raw body is empty, otherwise the raw body itself. -/
def payloadOf (decompress : List Nat → Option (List Nat)) (body : List Nat) :
    Option (List Nat) :=
  match decompress body with
  | some d => some d
  | none => if body.length = 0 then none else some body

/-- Embeds `func()` — the `POST /` handler (app.py lines 232–291).

Every control path of the Python function is represented; the handler is a
total function of the request, the decompression oracle and the broker
client, so no exception reaches the transport layer (the source's
`except Exception` backstop has no other trigger within the embedded
pipeline: `UnAuthorizedException` and `ProcessingException` are the only
raises, both mapped below). -/
def func (decompress : List Nat → Option (List Nat)) (client : Option BrokerClient)
    (basicAuth : String) (req : Request) : HandlerOutcome :=
  if authCheck basicAuth req.authorization then
    match payloadOf decompress req.body with
    | none => ⟨⟨FAILURE_RESPONSE, 400, APPLICATION_JSON⟩, emptyTrace, none⟩
    | some decompressed =>
      if decompressed.length = 0 then
        ⟨⟨FAILURE_RESPONSE, 400, APPLICATION_JSON⟩, emptyTrace, none⟩
      else
        match send_to_eventhub client decompressed req.logType with
        | (.ok, tr) => ⟨⟨SUCCESS_RESPONSE, 200, APPLICATION_JSON⟩, tr, some .ok⟩
        | (.processingError m, tr) =>
            ⟨⟨FAILURE_RESPONSE, 500, APPLICATION_JSON⟩, tr, some (.processingError m)⟩
  else ⟨⟨FAILURE_RESPONSE, 401, APPLICATION_JSON⟩, emptyTrace, none⟩

/-- Maps a forwarder outcome to the HTTP response `func` returns past the
decompression stage (app.py lines 279, 284–291): normal return → 200
success, `ProcessingException` → 500 failure. -/
def respOf : SendResult → HttpResponse
  | .ok => ⟨SUCCESS_RESPONSE, 200, APPLICATION_JSON⟩
  | .processingError _ => ⟨FAILURE_RESPONSE, 500, APPLICATION_JSON⟩

/-- Embeds `health()` — the `GET /health` handler (app.py lines 294–296).  The
client argument only witnesses that the result does not depend on the
broker client, which the source function never references. -/
def health (_client : Option BrokerClient) : HttpResponse × SendTrace :=
  (⟨SUCCESS_RESPONSE, 200, APPLICATION_JSON⟩, emptyTrace)

/-! ### Auxiliary definitions for stating claims -/

/-- Lower-cased header name, for case-insensitive HTTP header comparison. -/
def lowerName (s : String) : String := String.mk (s.data.map Char.toLower)

/-- Modelled from the claim wording of C3, not from the code: the remainder
of the header after stripping the scheme prefix `Basic␣` (once, as a
prefix) and surrounding whitespace. -/
def dropSchemeOnce : List Char → List Char
  | 'B' :: 'a' :: 's' :: 'i' :: 'c' :: ' ' :: rest => rest
  | l => l

/-- Modelled from the claim wording of C3: remainder after stripping the
scheme prefix and surrounding whitespace. -/
def remainderAfterScheme (h : String) : List Char := pyStrip (dropSchemeOnce h.data)

/-- Real gzip compression (deflate, mtime 0) of the seven bytes
`{"x":1}` — the example body of the spec. -/
def sampleGzipBody : List Nat :=
  [31, 139, 8, 0, 0, 0, 0, 0, 2, 3, 171, 86, 170, 80, 178, 50, 172, 5, 0,
   92, 89, 235, 59, 7, 0, 0, 0]

/-- The seven bytes `{"x":1}`. -/
def samplePayload : List Nat := strBytes "\x7b\"x\":1\x7d"

/-- Decompression oracle that decompresses exactly `sampleGzipBody`, to
`samplePayload`, and fails on everything else. -/
def sampleDecompress (b : List Nat) : Option (List Nat) :=
  if b = sampleGzipBody then some samplePayload else none

/-! ### Structural lemmas about the handler -/

/-- When the authentication check fails, `func` answers 401 without any
broker operation. -/
lemma func_auth_false (decompress : List Nat → Option (List Nat))
    (client : Option BrokerClient) (basicAuth : String) (req : Request)
    (h : authCheck basicAuth req.authorization = false) :
    func decompress client basicAuth req =
      ⟨⟨FAILURE_RESPONSE, 401, APPLICATION_JSON⟩, emptyTrace, none⟩ := by
  unfold func
  rw [h]
  rfl

/-- When the authentication check passes and the decompressed-or-fallback
payload is missing or empty, `func` answers 400 without any broker
operation. -/
lemma func_400 (decompress : List Nat → Option (List Nat))
    (client : Option BrokerClient) (basicAuth : String) (req : Request)
    (h1 : authCheck basicAuth req.authorization = true)
    (h2 : payloadOf decompress req.body = none ∨
          payloadOf decompress req.body = some []) :
    func decompress client basicAuth req =
      ⟨⟨FAILURE_RESPONSE, 400, APPLICATION_JSON⟩, emptyTrace, none⟩ := by
  unfold func
  rw [h1]
  rcases h2 with h2 | h2 <;> rw [h2] <;> rfl

/-- When the authentication check passes and the payload is non-empty,
`func` is the forwarder result mapped through `respOf`. -/
lemma func_send (decompress : List Nat → Option (List Nat))
    (client : Option BrokerClient) (basicAuth : String) (req : Request)
    (p : List Nat)
    (h1 : authCheck basicAuth req.authorization = true)
    (h2 : payloadOf decompress req.body = some p)
    (h3 : p ≠ []) :
    func decompress client basicAuth req =
      ⟨respOf (send_to_eventhub client p req.logType).1,
       (send_to_eventhub client p req.logType).2,
       some (send_to_eventhub client p req.logType).1⟩ := by
  unfold func
  rw [h1, h2]
  rcases hs : send_to_eventhub client p req.logType with ⟨r, tr⟩
  cases r <;> simp [respOf, hs, List.length_eq_zero, h3]

/-- Characterization of the authentication check on a present header. -/
lemma authCheck_some_iff (basicAuth a : String) :
    authCheck basicAuth (some a) = true ↔
      containsBasic a.data = true ∧
        pyStrip (replaceBasic a.data) = basicAuth.data := by
  by_cases h0 : a = ""
  · subst h0
    simp [authCheck, (by decide : containsBasic (String.data "") = false)]
  · by_cases hc : containsBasic a.data <;> simp [authCheck, h0, hc]

/-! ### Claim theorems -/

/-- Claim C1: every `POST /` request yields exactly one response whose
status is one of 200, 400, 401, 500 and whose body is one of the two
literal JSON documents; the handler is a total function (no exception
reaches the transport layer), and any failure of the broker call,
whatever its underlying cause, maps to 500 with the failure body. -/
theorem c1_total_response_shape (decompress : List Nat → Option (List Nat))
    (client : Option BrokerClient) (basicAuth : String) (req : Request) :
    ((func decompress client basicAuth req).resp.status = 200 ∨
     (func decompress client basicAuth req).resp.status = 400 ∨
     (func decompress client basicAuth req).resp.status = 401 ∨
     (func decompress client basicAuth req).resp.status = 500) ∧
    ((func decompress client basicAuth req).resp.body = SUCCESS_RESPONSE ∨
     (func decompress client basicAuth req).resp.body = FAILURE_RESPONSE) ∧
    (∀ m, (func decompress client basicAuth req).sendResult =
        some (.processingError m) →
      (func decompress client basicAuth req).resp =
        ⟨FAILURE_RESPONSE, 500, APPLICATION_JSON⟩) := by
  cases hb : authCheck basicAuth req.authorization
  · rw [func_auth_false decompress client basicAuth req hb]
    exact ⟨by simp, by simp, by simp⟩
  · rcases hp : payloadOf decompress req.body with _ | p
    · rw [func_400 decompress client basicAuth req hb (Or.inl hp)]
      exact ⟨by simp, by simp, by simp⟩
    · by_cases hd : p = []
      · rw [func_400 decompress client basicAuth req hb (Or.inr (hd ▸ hp))]
        exact ⟨by simp, by simp, by simp⟩
      · rw [func_send decompress client basicAuth req p hb hp hd]
        cases hs : (send_to_eventhub client p req.logType).1 <;>
          simp [respOf, hs]

/-- Witness for C1 at a concrete request whose broker publish fails. -/
theorem c1_witness :
    (func (fun _ => some [1]) (some ⟨false, false, true⟩) "c"
      ⟨some "Basic c", none, [9]⟩).resp =
      ⟨FAILURE_RESPONSE, 500, APPLICATION_JSON⟩ :=
  (c1_total_response_shape (fun _ => some [1]) (some ⟨false, false, true⟩) "c"
    ⟨some "Basic c", none, [9]⟩).2.2 brokerFailureMsg (by decide)

/-- Claim C2 (code bug): every response is returned with the extra-headers
mapping whose single entry is named `ContentType` — which is not the HTTP
`Content-Type` header, not even case-insensitively — so the handler never
sets `Content-Type: application/json` as the spec states. -/
theorem c2_header_named_contenttype :
    (∀ (decompress : List Nat → Option (List Nat))
       (client : Option BrokerClient) (basicAuth : String) (req : Request),
       (func decompress client basicAuth req).resp.headers =
         [("ContentType", "application/json")]) ∧
    (health none).1.headers = [("ContentType", "application/json")] ∧
    lowerName "ContentType" ≠ lowerName "Content-Type" := by
  refine ⟨?_, rfl, by decide⟩
  intro decompress client basicAuth req
  cases hb : authCheck basicAuth req.authorization
  · rw [func_auth_false decompress client basicAuth req hb]
    rfl
  · rcases hp : payloadOf decompress req.body with _ | p
    · rw [func_400 decompress client basicAuth req hb (Or.inl hp)]
      rfl
    · by_cases hd : p = []
      · rw [func_400 decompress client basicAuth req hb (Or.inr (hd ▸ hp))]
        rfl
      · rw [func_send decompress client basicAuth req p hb hp hd]
        cases hs : (send_to_eventhub client p req.logType).1 <;>
          simp [respOf, hs, APPLICATION_JSON]

/-- Claim C3 fails as stated: the header `Basic Basic YWRtaW46cGFzc3dvcmQ=`
has, after stripping the scheme prefix and surrounding whitespace, a
remainder different from the expected credential, yet the handler answers
200, not 401 (the code deletes every occurrence of the scheme token, not
just the prefix). -/
theorem c3_counterexample :
    containsBasic ("Basic Basic YWRtaW46cGFzc3dvcmQ=").data = true ∧
    remainderAfterScheme "Basic Basic YWRtaW46cGFzc3dvcmQ=" ≠
      ("YWRtaW46cGFzc3dvcmQ=").data ∧
    (func (fun _ => some [1]) (some ⟨false, false, false⟩)
      "YWRtaW46cGFzc3dvcmQ="
      ⟨some "Basic Basic YWRtaW46cGFzc3dvcmQ=", none, []⟩).resp.status = 200 := by
  decide

/-- Claim C3 as amended: a request whose `Authorization` header is missing,
or does not contain the substring `Basic`, or for which deleting every
occurrence of `Basic␣` and stripping surrounding whitespace yields a string
different from the expected credential, is answered 401 with the failure
body, and no broker operation is invoked. -/
theorem c3_unauthorized_amended (decompress : List Nat → Option (List Nat))
    (client : Option BrokerClient) (basicAuth : String) (req : Request)
    (h : req.authorization = none ∨
         (∃ a, req.authorization = some a ∧ containsBasic a.data = false) ∨
         (∃ a, req.authorization = some a ∧
            pyStrip (replaceBasic a.data) ≠ basicAuth.data)) :
    func decompress client basicAuth req =
      ⟨⟨FAILURE_RESPONSE, 401, APPLICATION_JSON⟩, emptyTrace, none⟩ := by
  refine func_auth_false decompress client basicAuth req ?_
  rcases h with h | ⟨a, ha, hc⟩ | ⟨a, ha, hne⟩
  · rw [h]; rfl
  · rw [ha]
    cases hck : authCheck basicAuth (some a)
    · rfl
    · exact absurd ((authCheck_some_iff basicAuth a).mp hck).1 (by simp [hc])
  · rw [ha]
    cases hck : authCheck basicAuth (some a)
    · rfl
    · exact absurd ((authCheck_some_iff basicAuth a).mp hck).2 hne

/-- Witness for C3 (amended) at a concrete request with no header. -/
theorem c3_witness :
    func (fun _ => some [1]) none "c" ⟨none, none, []⟩ =
      ⟨⟨FAILURE_RESPONSE, 401, APPLICATION_JSON⟩, emptyTrace, none⟩ :=
  c3_unauthorized_amended (fun _ => some [1]) none "c" ⟨none, none, []⟩
    (Or.inl rfl)

/-- Claim C4: with the correct credential, a body whose gzip decompression
yields a non-empty byte list `d`, and a broker whose operations succeed,
the handler publishes exactly one batch containing exactly one event
carrying `d` in a single publish attempt and answers 200 with the success
body. -/
theorem c4_success_forwards_decompressed
    (decompress : List Nat → Option (List Nat)) (c : BrokerClient)
    (basicAuth : String) (req : Request) (d : List Nat)
    (hauth : authCheck basicAuth req.authorization = true)
    (hdec : decompress req.body = some d) (hne : d ≠ [])
    (h1 : c.createBatchFails = false) (h2 : c.eventStageFails = false)
    (h3 : c.sendBatchFails = false) :
    func decompress (some c) basicAuth req =
      ⟨⟨SUCCESS_RESPONSE, 200, APPLICATION_JSON⟩,
       ⟨1, [⟨d, eventProps req.logType⟩], 1⟩, some .ok⟩ := by
  have hp : payloadOf decompress req.body = some d := by
    unfold payloadOf
    rw [hdec]
  rw [func_send decompress (some c) basicAuth req d hauth hp hne]
  simp [send_to_eventhub, h1, h2, h3, respOf]

/-- Witness for C4: the spec's own example.  The credential derived from
`admin:password` is `YWRtaW46cGFzc3dvcmQ=`; a request carrying
`Basic YWRtaW46cGFzc3dvcmQ=` and the real gzip compression of the seven
bytes of the sample document yields 200 and one broker event carrying
exactly those seven bytes. -/
theorem c4_witness :
    BASIC_AUTH "admin" "password" = "YWRtaW46cGFzc3dvcmQ=" ∧
    func sampleDecompress (some ⟨false, false, false⟩) "YWRtaW46cGFzc3dvcmQ="
      ⟨some "Basic YWRtaW46cGFzc3dvcmQ=", none, sampleGzipBody⟩ =
      ⟨⟨SUCCESS_RESPONSE, 200, APPLICATION_JSON⟩,
       ⟨1, [⟨samplePayload, []⟩], 1⟩, some .ok⟩ := by
  refine ⟨by decide, ?_⟩
  have h := c4_success_forwards_decompressed sampleDecompress
    ⟨false, false, false⟩ "YWRtaW46cGFzc3dvcmQ="
    ⟨some "Basic YWRtaW46cGFzc3dvcmQ=", none, sampleGzipBody⟩
    samplePayload (by decide) (by decide) (by decide) rfl rfl rfl
  simpa [eventProps] using h

/-- Claim C5: with the correct credential and failing gzip decompression,
an empty raw body is answered 400 with no broker operation, while a
non-empty raw body is forwarded to the broker unchanged (fallback) and the
response is 200 with the success body when the broker call succeeds. -/
theorem c5_decompress_failure_policy
    (decompress : List Nat → Option (List Nat)) (client : Option BrokerClient)
    (basicAuth : String) (req : Request)
    (hauth : authCheck basicAuth req.authorization = true)
    (hdec : decompress req.body = none) :
    (req.body = [] →
      func decompress client basicAuth req =
        ⟨⟨FAILURE_RESPONSE, 400, APPLICATION_JSON⟩, emptyTrace, none⟩) ∧
    (req.body ≠ [] →
      (func decompress client basicAuth req).trace =
          (send_to_eventhub client req.body req.logType).2 ∧
      (func decompress client basicAuth req).sendResult =
          some (send_to_eventhub client req.body req.logType).1 ∧
      ((send_to_eventhub client req.body req.logType).1 = .ok →
        (func decompress client basicAuth req).resp =
          ⟨SUCCESS_RESPONSE, 200, APPLICATION_JSON⟩)) := by
  constructor
  · intro hbody
    refine func_400 decompress client basicAuth req hauth (Or.inl ?_)
    unfold payloadOf
    rw [hdec, hbody]
    rfl
  · intro hbody
    have hp : payloadOf decompress req.body = some req.body := by
      unfold payloadOf
      rw [hdec, if_neg (fun hlen => hbody (List.length_eq_zero.mp hlen))]
    rw [func_send decompress client basicAuth req req.body hauth hp hbody]
    refine ⟨rfl, rfl, fun hok => ?_⟩
    simp [hok, respOf]

/-- Witness for C5 at a concrete non-gzip, non-empty body with a healthy
broker: the raw byte is forwarded and the response is 200. -/
theorem c5_witness :
    (func (fun _ => none) (some ⟨false, false, false⟩) "c"
      ⟨some "Basic c", none, [5]⟩).resp =
      ⟨SUCCESS_RESPONSE, 200, APPLICATION_JSON⟩ :=
  ((c5_decompress_failure_policy (fun _ => none) (some ⟨false, false, false⟩)
      "c" ⟨some "Basic c", none, [5]⟩ (by decide) rfl).2 (by decide)).2.2
    (by decide)

/-- Claim C6: a broker publish happens only when the decompressed (or
fallback) payload is non-empty, and an authorized request whose resulting
payload is missing or empty is answered 400 with no broker operation at
all. -/
theorem c6_publish_only_nonempty (decompress : List Nat → Option (List Nat))
    (client : Option BrokerClient) (basicAuth : String) (req : Request) :
    ((func decompress client basicAuth req).trace.publishAttempts ≠ 0 →
      ∃ p, payloadOf decompress req.body = some p ∧ p ≠ []) ∧
    (authCheck basicAuth req.authorization = true →
      (payloadOf decompress req.body = none ∨
       payloadOf decompress req.body = some []) →
      func decompress client basicAuth req =
        ⟨⟨FAILURE_RESPONSE, 400, APPLICATION_JSON⟩, emptyTrace, none⟩) := by
  constructor
  · intro hpub
    cases hb : authCheck basicAuth req.authorization
    · rw [func_auth_false decompress client basicAuth req hb] at hpub
      exact absurd rfl hpub
    · rcases hp : payloadOf decompress req.body with _ | p
      · rw [func_400 decompress client basicAuth req hb (Or.inl hp)] at hpub
        exact absurd rfl hpub
      · by_cases hd : p = []
        · rw [func_400 decompress client basicAuth req hb
            (Or.inr (hd ▸ hp))] at hpub
          exact absurd rfl hpub
        · exact ⟨p, rfl, hd⟩
  · intro hauth hzero
    exact func_400 decompress client basicAuth req hauth hzero

/-- Witness for C6 at a concrete authorized request whose body
decompresses to the empty byte list. -/
theorem c6_witness :
    func (fun _ => some []) (some ⟨false, false, false⟩) "c"
      ⟨some "Basic c", none, [1]⟩ =
      ⟨⟨FAILURE_RESPONSE, 400, APPLICATION_JSON⟩, emptyTrace, none⟩ :=
  (c6_publish_only_nonempty (fun _ => some []) (some ⟨false, false, false⟩)
    "c" ⟨some "Basic c", none, [1]⟩).2 (by decide) (Or.inr rfl)

/-- Claim C7: when the broker client handle is absent the forwarder fails
at once — its trace is empty, so the failure precedes every broker
operation — with the not-initialized `ProcessingException`, and an
authorized request with a non-empty payload is then answered 500 with the
failure body. -/
theorem c7_not_initialized (data : List Nat) (tag : Option String)
    (decompress : List Nat → Option (List Nat)) (basicAuth : String)
    (req : Request) :
    send_to_eventhub none data tag =
      (.processingError notInitializedMsg, emptyTrace) ∧
    (authCheck basicAuth req.authorization = true →
      ∀ p, payloadOf decompress req.body = some p → p ≠ [] →
        func decompress none basicAuth req =
          ⟨⟨FAILURE_RESPONSE, 500, APPLICATION_JSON⟩, emptyTrace,
           some (.processingError notInitializedMsg)⟩) := by
  refine ⟨rfl, fun hauth p hp hne => ?_⟩
  rw [func_send decompress none basicAuth req p hauth hp hne]
  rfl

/-- Witness for C7 at a concrete forwarder call and a concrete authorized
request, both with an absent broker client. -/
theorem c7_witness :
    send_to_eventhub none [1] none =
      (.processingError notInitializedMsg, emptyTrace) ∧
    func (fun _ => some [2]) none "c" ⟨some "Basic c", none, [9]⟩ =
      ⟨⟨FAILURE_RESPONSE, 500, APPLICATION_JSON⟩, emptyTrace,
       some (.processingError notInitializedMsg)⟩ :=
  ⟨(c7_not_initialized [1] none (fun _ => some [2]) "c"
      ⟨some "Basic c", none, [9]⟩).1,
   (c7_not_initialized [1] none (fun _ => some [2]) "c"
      ⟨some "Basic c", none, [9]⟩).2 (by decide) [2] rfl (by decide)⟩

/-- Claim C8 fails as stated: the forwarder is called with a provided tag
(the empty string, a tag the handler passes through from an empty
`Log-Type` header), yet the published event carries no `LogType`
property — attachment is decided by Python truthiness, not by presence. -/
theorem c8_counterexample :
    (some "" : Option String) ≠ none ∧
    send_to_eventhub (some ⟨false, false, false⟩) [1] (some "") =
      (.ok, ⟨1, [⟨[1], []⟩], 1⟩) := by
  decide

/-- Claim C8 as amended: with a broker client present, a call whose broker
operations succeed constructs exactly one batch containing exactly one
event carrying the given bytes in exactly one publish attempt; the
`LogType` property is attached exactly when the provided tag is non-empty
(an empty-string tag, like an absent one, attaches nothing); any broker
failure is re-raised as a single `ProcessingException`; and per call at
most one publish attempt and exactly one batch creation occur. -/
theorem c8_forward_amended (c : BrokerClient) (data : List Nat)
    (tag : Option String) :
    (c.createBatchFails = false → c.eventStageFails = false →
     c.sendBatchFails = false →
      send_to_eventhub (some c) data tag =
        (.ok, ⟨1, [⟨data, eventProps tag⟩], 1⟩)) ∧
    (∀ s, tag = some s → s ≠ "" → eventProps tag = [("LogType", s)]) ∧
    (tag = none → eventProps tag = []) ∧
    (tag = some "" → eventProps tag = []) ∧
    (c.createBatchFails = true ∨ c.eventStageFails = true ∨
     c.sendBatchFails = true →
      (send_to_eventhub (some c) data tag).1 =
        .processingError brokerFailureMsg) ∧
    (send_to_eventhub (some c) data tag).2.publishAttempts ≤ 1 ∧
    (send_to_eventhub (some c) data tag).2.createBatchCalls = 1 := by
  obtain ⟨cb, ev, sb⟩ := c
  cases cb <;> cases ev <;> cases sb <;>
    refine ⟨fun h1 h2 h3 => ?_, fun s hs hne => ?_, fun h => ?_,
      fun h => ?_, fun h => ?_, ?_, ?_⟩ <;>
    simp_all [send_to_eventhub, eventProps]

/-- Witness for C8 (amended) at a healthy client with a non-empty tag. -/
theorem c8_witness :
    send_to_eventhub (some ⟨false, false, false⟩) [1, 2] (some "t") =
      (.ok, ⟨1, [⟨[1, 2], [("LogType", "t")]⟩], 1⟩) := by
  have h := (c8_forward_amended ⟨false, false, false⟩ [1, 2] (some "t")).1
    rfl rfl rfl
  simpa [eventProps] using h

/-- Claim C9: `GET /health` answers 200 with the success body for every
broker-client state, absent handle included, and performs no broker
operation. -/
theorem c9_health (client : Option BrokerClient) :
    health client = (⟨SUCCESS_RESPONSE, 200, APPLICATION_JSON⟩, emptyTrace) :=
  rfl

/-- Claim C10: the handler accepts exactly those present header values in
which the substring `Basic` occurs and whose residue after deleting every
occurrence of `Basic␣` and stripping surrounding whitespace equals the
expected credential byte-for-byte; in particular the header
`Basic Basic YWRtaW46cGFzc3dvcmQ=` is accepted and the request answered
200. -/
theorem c10_auth_accepted_iff (decompress : List Nat → Option (List Nat))
    (client : Option BrokerClient) (basicAuth : String) (req : Request)
    (a : String) :
    (req.authorization = some a →
      ((func decompress client basicAuth req).resp.status ≠ 401 ↔
        containsBasic a.data = true ∧
          pyStrip (replaceBasic a.data) = basicAuth.data)) ∧
    (func (fun _ => some [1]) (some ⟨false, false, false⟩)
      "YWRtaW46cGFzc3dvcmQ="
      ⟨some "Basic Basic YWRtaW46cGFzc3dvcmQ=", none, []⟩).resp.status = 200 := by
  refine ⟨fun ha => ⟨fun hne => ?_, fun hcond => ?_⟩, by decide⟩
  · cases hb : authCheck basicAuth req.authorization
    · exact absurd
        (by rw [func_auth_false decompress client basicAuth req hb]) hne
    · rw [ha] at hb
      exact (authCheck_some_iff basicAuth a).mp hb
  · have hauth : authCheck basicAuth req.authorization = true := by
      rw [ha]
      exact (authCheck_some_iff basicAuth a).mpr hcond
    rcases hp : payloadOf decompress req.body with _ | p
    · rw [func_400 decompress client basicAuth req hauth (Or.inl hp)]
      simp
    · by_cases hd : p = []
      · rw [func_400 decompress client basicAuth req hauth
          (Or.inr (hd ▸ hp))]
        simp
      · rw [func_send decompress client basicAuth req p hauth hp hd]
        cases hs : (send_to_eventhub client p req.logType).1 <;>
          simp [respOf, hs]

/-- Witness for C10 at a concrete doubled-scheme header accepted by the
handler. -/
theorem c10_witness :
    (func (fun _ => some [1]) (some ⟨false, false, false⟩) "c"
      ⟨some "Basic Basic c", none, [2]⟩).resp.status ≠ 401 :=
  ((c10_auth_accepted_iff (fun _ => some [1]) (some ⟨false, false, false⟩)
      "c" ⟨some "Basic Basic c", none, [2]⟩ "Basic Basic c").1 rfl).mpr
    (by decide)

end HttpIngest
